import Mathlib

/-!
Verification of the value-normalization and envelope layer of the
yfinance bridge (src/python/yf_bridge.py).

The embedding models the Python values that can reach the serializer
as an inductive type `Raw`, and translates the functions
`_to_iso`, `_serialize_value`, `_read_payload`, `_ok`, `_err` and
`main` into Lean functions over that type.  Machine floats are
modelled by `PyFloat`, which separates finite values (represented by a
rational stand-in), NaN and the two signed infinities; this is all the
claims need, since they only distinguish finite / NaN / infinite.
-/

/-- Model of a Python float: a finite value (stand-in payload is a
rational; no claim depends on the decimal rendering of finite floats),
NaN, or a signed infinity. -/
inductive PyFloat where
  | finite (q : ℚ)
  | nan
  | inf (neg : Bool)
deriving DecidableEq

/-- Model of math.isnan. -/
def pyfloat_isnan : PyFloat → Bool
  | .nan => true
  | _ => false

/-- True exactly on finite floats (math.isfinite). -/
def pyfloat_finite : PyFloat → Bool
  | .finite _ => true
  | _ => false

/-- Python str() of a float.  The rendering of finite values is
abstracted by the rational payload; NaN and infinities follow CPython
("nan", "inf", "-inf"). -/
def pyfloat_str : PyFloat → String
  | .finite q => toString q
  | .nan => "nan"
  | .inf neg => if neg then "-inf" else "inf"

/-- A native Python scalar as produced by numpy.generic.item(). -/
inductive Scalar where
  | sBool (b : Bool)
  | sInt (n : ℤ)
  | sFloat (f : PyFloat)
  | sStr (s : String)
deriving DecidableEq

/-- Python values reaching _serialize_value: native scalars and
containers, plus the provider-library types the dispatch chain tests
for.  `timestamp` carries both the value of .isoformat() and the value
of str() on the same object (for a timezone-aware pandas Timestamp
these differ: isoformat uses a T separator, str uses a space).
`dictLike` models a duck-typed object with keys() and item access that
is not a literal dict; its `raises` flag records whether iterating its
keys or looking one up raises, which drives the try/except at lines
47-50 of the source. -/
inductive Raw where
  | pyNone
  | pyBool (b : Bool)
  | pyInt (n : ℤ)
  | pyFloat (f : PyFloat)
  | pyStr (s : String)
  | pyList (elems : List Raw)
  | pyTuple (elems : List Raw)
  | pyDict (pairs : List (Raw × Raw))
  | npGeneric (item : Scalar)
  | ndarray (elems : List Raw)
  | dataframe (columns : List Raw) (index : List Raw) (rows : List (List Raw))
  | series (name : Option Raw) (index : List Raw) (data : List Raw)
  | dictLike (pairs : List (Raw × Raw)) (raises : Bool)
  | timestamp (iso : String) (strForm : String)
  | period (label : String)

mutual

/-- Python str() applied to a Raw value.  Scalar cases are faithful to
CPython and pandas (str of a timezone-aware Timestamp is its
space-separated form, str of a Period is its textual label); the
rendering of containers abstracts the repr-versus-str distinction of
elements, which no claim depends on; provider container objects render
as an unspecified token. -/
def py_str : Raw → String
  | .pyNone => "None"
  | .pyBool b => if b then "True" else "False"
  | .pyInt n => toString n
  | .pyFloat f => pyfloat_str f
  | .pyStr s => s
  | .pyList es => "[" ++ py_str_join es ++ "]"
  | .pyTuple es => "(" ++ py_str_join es ++ ")"
  | .pyDict ps => "\x7b" ++ py_str_pairs ps ++ "\x7d"
  | .npGeneric (.sBool b) => if b then "True" else "False"
  | .npGeneric (.sInt n) => toString n
  | .npGeneric (.sFloat f) => pyfloat_str f
  | .npGeneric (.sStr s) => s
  | .ndarray es => "[" ++ py_str_join es ++ "]"
  | .dataframe _ _ _ => "<dataframe>"
  | .series _ _ _ => "<series>"
  | .dictLike _ _ => "<object>"
  | .timestamp _ strForm => strForm
  | .period label => label

def py_str_join : List Raw → String
  | [] => ""
  | [x] => py_str x
  | x :: y :: xs => py_str x ++ ", " ++ py_str_join (y :: xs)

def py_str_pairs : List (Raw × Raw) → String
  | [] => ""
  | [(k, v)] => py_str k ++ ": " ++ py_str v
  | (k, v) :: p :: ps => py_str k ++ ": " ++ py_str v ++ ", " ++ py_str_pairs (p :: ps)

end

/-- Translation of _to_iso (lines 20-25): a pandas Timestamp becomes
its isoformat() string, a pandas Period becomes its str() label, and
every other value is returned unchanged. -/
def to_iso : Raw → Raw
  | .timestamp iso _ => .pyStr iso
  | .period label => .pyStr label
  | v => v

/-- Translation of df.where(pd.notnull(df), None) applied cell-wise
(lines 31 and 39): cells for which pd.notnull is false, i.e. None and
float NaN (NaT does not arise in the model, where timestamps are
always valid), are replaced by None; all other cells pass unchanged. -/
def where_notnull : Raw → Raw
  | .pyNone => .pyNone
  | .pyFloat f => if pyfloat_isnan f then .pyNone else .pyFloat f
  | v => v

/-- Replacing a null-like cell never grows the term. -/
theorem where_notnull_sizeOf (x : Raw) : sizeOf (where_notnull x) ≤ sizeOf x := by
  cases x <;> simp [where_notnull]
  split <;> simp

mutual

/-- Translation of _serialize_value (lines 28-66), one branch per
isinstance test, in source order.  A literal dict is intercepted by
the keys/getitem test at line 46, whose comprehension cannot raise for
a dict and which builds the same result as the dict branch at lines
58-59, so both are rendered by the `pyDict` case.  A dict-like object
whose key iteration or lookup raises falls through every later test
(it is not an np scalar, ndarray, dict, list, tuple, Timestamp, Period
or float) and is returned unchanged by line 66. -/
def serialize_value : Raw → Raw
  | .dataframe cols idx rows =>
      .pyDict [(.pyStr "__type__", .pyStr "dataframe"),
               (.pyStr "columns", .pyList (cols.map (fun c => .pyStr (py_str c)))),
               (.pyStr "index", .pyList (idx.map to_iso)),
               (.pyStr "data", .pyList (serialize_rows rows))]
  | .series name idx data =>
      .pyDict [(.pyStr "__type__", .pyStr "series"),
               (.pyStr "name", match name with
                               | some n => .pyStr (py_str n)
                               | none => .pyNone),
               (.pyStr "index", .pyList (idx.map to_iso)),
               (.pyStr "data", .pyList (serialize_cells data))]
  | .pyDict pairs => .pyDict (serialize_pairs pairs)
  | .dictLike pairs raises =>
      if raises then .dictLike pairs raises
      else .pyDict (serialize_pairs pairs)
  | .npGeneric s =>
      match s with
      | .sFloat f => if pyfloat_isnan f then .pyNone else .pyFloat f
      | .sBool b => .pyBool b
      | .sInt n => .pyInt n
      | .sStr t => .pyStr t
  | .ndarray es => .pyList (serialize_list es)
  | .pyList es => .pyList (serialize_list es)
  | .pyTuple es => .pyList (serialize_list es)
  | .timestamp iso strForm => to_iso (.timestamp iso strForm)
  | .period label => to_iso (.period label)
  | .pyFloat f => if pyfloat_isnan f then .pyNone else .pyFloat f
  | .pyNone => .pyNone
  | .pyBool b => .pyBool b
  | .pyInt n => .pyInt n
  | .pyStr s => .pyStr s
termination_by v => sizeOf v
decreasing_by all_goals (simp_wf; try omega)

def serialize_list : List Raw → List Raw
  | [] => []
  | x :: xs => serialize_value x :: serialize_list xs
termination_by l => sizeOf l
decreasing_by all_goals (simp_wf; try omega)

def serialize_cells : List Raw → List Raw
  | [] => []
  | x :: xs => serialize_value (where_notnull x) :: serialize_cells xs
termination_by l => sizeOf l
decreasing_by
  all_goals simp_wf
  all_goals (have h := where_notnull_sizeOf x; omega)

def serialize_rows : List (List Raw) → List Raw
  | [] => []
  | r :: rs => .pyList (serialize_cells r) :: serialize_rows rs
termination_by l => sizeOf l
decreasing_by all_goals (simp_wf; try omega)

def serialize_pairs : List (Raw × Raw) → List (Raw × Raw)
  | [] => []
  | (k, v) :: ps => (.pyStr (py_str k), serialize_value v) :: serialize_pairs ps
termination_by l => sizeOf l
decreasing_by all_goals (simp_wf; try omega)

end

mutual

/-- True when the value contains a float that is NaN or an infinity
anywhere (including inside provider containers).  On values made only
of native JSON-compatible constructors this is exactly the condition
under which json.dumps with allow_nan=False raises ValueError. -/
def has_nonfinite : Raw → Bool
  | .pyFloat f => !pyfloat_finite f
  | .npGeneric (.sFloat f) => !pyfloat_finite f
  | .npGeneric _ => false
  | .pyList es => has_nonfinite_list es
  | .pyTuple es => has_nonfinite_list es
  | .ndarray es => has_nonfinite_list es
  | .pyDict ps => has_nonfinite_pairs ps
  | .dictLike ps _ => has_nonfinite_pairs ps
  | .dataframe _ idx rows => has_nonfinite_list idx || has_nonfinite_rows rows
  | .series _ idx data => has_nonfinite_list idx || has_nonfinite_list data
  | _ => false

def has_nonfinite_list : List Raw → Bool
  | [] => false
  | x :: xs => has_nonfinite x || has_nonfinite_list xs

def has_nonfinite_pairs : List (Raw × Raw) → Bool
  | [] => false
  | (_, v) :: ps => has_nonfinite v || has_nonfinite_pairs ps

def has_nonfinite_rows : List (List Raw) → Bool
  | [] => false
  | r :: rs => has_nonfinite_list r || has_nonfinite_rows rs

end

/-- True when a value may stand as a dict key under json.dumps: str,
int, bool, None, and finite floats are coerced to strings; a
non-finite float key raises under allow_nan=False and any other key
type raises TypeError. -/
def key_dumpable : Raw → Bool
  | .pyStr _ => true
  | .pyInt _ => true
  | .pyBool _ => true
  | .pyNone => true
  | .pyFloat f => pyfloat_finite f
  | _ => false

mutual

/-- True when the value contains something json.dumps cannot encode at
all (a TypeError): any provider-library object (numpy scalar or array,
pandas object, duck-typed container returned unconverted) or a dict
key that is not a key-compatible scalar. -/
def has_unencodable : Raw → Bool
  | .pyNone => false
  | .pyBool _ => false
  | .pyInt _ => false
  | .pyFloat _ => false
  | .pyStr _ => false
  | .pyList es => has_unencodable_list es
  | .pyTuple es => has_unencodable_list es
  | .pyDict ps => has_unencodable_pairs ps
  | _ => true

def has_unencodable_list : List Raw → Bool
  | [] => false
  | x :: xs => has_unencodable x || has_unencodable_list xs

def has_unencodable_pairs : List (Raw × Raw) → Bool
  | [] => false
  | (k, v) :: ps => !key_dumpable k || has_unencodable v || has_unencodable_pairs ps

end

/-- json.dumps(v, allow_nan=False) succeeds exactly when the value has
no non-finite float and nothing unencodable. -/
def json_dumpable (v : Raw) : Bool :=
  !has_nonfinite v && !has_unencodable v

/-- Translation of the payload built by _err (lines 81-85): ok false,
the error message, and the details only when they are a non-empty
string (the Python truthiness test at line 83). -/
def err_payload (message : String) (details : Option String) : Raw :=
  .pyDict ([(.pyStr "ok", .pyBool false), (.pyStr "error", .pyStr message)] ++
    match details with
    | some d => if d = "" then [] else [(.pyStr "details", .pyStr d)]
    | none => [])

/-- Translation of the payload built by _ok (line 77) from an already
serialized result. -/
def ok_payload (result : Raw) : Raw :=
  .pyDict [(.pyStr "ok", .pyBool true), (.pyStr "result", result)]

/-- Message of the ValueError or TypeError raised by json.dumps inside
_ok when the serialized tree is not JSON-encodable.  The ValueError
text is the CPython literal; the TypeError text names the offending
type in CPython, which the model abstracts away.  Both are non-empty. -/
def dumps_error_message (v : Raw) : String :=
  if has_nonfinite v then "Out of range float values are not JSON compliant"
  else "Object is not JSON serializable"

/-- Stand-in for the traceback.format_exc() text attached as details
when the dispatch result cannot be dumped; its only relevant property
is that it is some non-empty diagnostic string. -/
def dumps_traceback : String :=
  "Traceback (most recent call last)"

/-- The standard input of one invocation, as seen by _read_payload:
blank (empty or whitespace only, so raw.strip() is falsy), a
syntactically malformed JSON text (json.loads raises), or a text that
parses to some value. -/
inductive Stdin where
  | blank
  | invalidJson
  | jsonVal (v : Raw)

/-- Translation of _read_payload (lines 69-73): blank input is treated
as the empty dict without parsing; otherwise json.loads either raises
(modelled as the error case) or returns the parsed value. -/
def read_payload : Stdin → Except String Raw
  | .blank => .ok (.pyDict [])
  | .invalidJson => .error "json.decoder.JSONDecodeError"
  | .jsonVal v => .ok v

/-- Outcome of _dispatch(action, args) (line 466): the Router either
returns a raw value or raises an exception whose str() is `msg` and
whose traceback.format_exc() is `trace`.  The dispatch table itself is
routing, out of the scope of the claims, so the outcome is a
parameter. -/
inductive Outcome where
  | ret (v : Raw)
  | raised (msg : String) (trace : String)

/-- What one invocation of main ends as: exactly one document written
to stdout, or a crash by an uncaught exception (named by the
exception), with nothing written. -/
inductive MainResult where
  | doc (d : Raw)
  | crash (exc : String)

/-- dict.get(key) on an association list whose relevant keys are
strings: the first pair whose key is the string wins; a dict parsed
from JSON has string keys, and a non-string key never equals the
looked-up string. -/
def dict_get (pairs : List (Raw × Raw)) (key : String) : Option Raw :=
  match pairs with
  | [] => none
  | (.pyStr s, v) :: ps => if s = key then some v else dict_get ps key
  | _ :: ps => dict_get ps key

/-- Python truthiness of the values an action field can hold.  The
containers follow len(); values that cannot appear in a json.loads
result (provider objects, whose bool() may even raise in pandas) are
given an arbitrary total value of true, which no claim exercises. -/
def truthy : Raw → Bool
  | .pyNone => false
  | .pyBool b => b
  | .pyInt n => !decide (n = 0)
  | .pyFloat f => !decide (f = .finite 0)
  | .pyStr s => !(s == "")
  | .pyList es => !es.isEmpty
  | .pyTuple es => !es.isEmpty
  | .pyDict ps => !ps.isEmpty
  | _ => true

/-- Translation of main (lines 449-470).  The import guard fires
first, before any reading of stdin (the model folds the Python
truthiness of the module-level error string into the Option, taking a
failed import to carry a non-empty message, which str() of an
ImportError always is).  _read_payload runs OUTSIDE the try block, so
a json.loads failure propagates as an uncaught exception, as does the
AttributeError from calling .get on a parsed payload that is not a
dict.  A missing or falsy action short-circuits into _err before
_dispatch.  Otherwise the dispatch outcome is wrapped by _ok, whose
json.dumps(allow_nan=False) failure is caught by the except at line
468 together with every exception raised by dispatch itself. -/
def run_main (import_error : Option String) (stdin : Stdin) (outcome : Outcome) :
    MainResult :=
  match import_error with
  | some _ =>
      .doc (err_payload "Missing Python dependencies for yfinance bridge."
        (some "Install with: pip install -r mcp/python/requirements.txt"))
  | none =>
    match read_payload stdin with
    | .error e => .crash e
    | .ok payload =>
      match payload with
      | .pyDict pairs =>
        match dict_get pairs "action" with
        | none => .doc (err_payload "Missing action in payload" none)
        | some a =>
          if truthy a then
            match outcome with
            | .ret v =>
              let s := serialize_value v
              if json_dumpable (ok_payload s) then .doc (ok_payload s)
              else .doc (err_payload (dumps_error_message (ok_payload s))
                (some dumps_traceback))
            | .raised msg trace => .doc (err_payload msg (some trace))
          else .doc (err_payload "Missing action in payload" none)
      | _ => .crash "AttributeError"

/-- Field lookup on an emitted document: the value under a string key
if the document is a dict, none otherwise. -/
def doc_get (d : Raw) (key : String) : Option Raw :=
  match d with
  | .pyDict pairs => dict_get pairs key
  | _ => none

/-- A well-formed envelope: a dict whose ok field is a boolean and
whose error field is a non-empty string whenever ok is false. -/
def good_envelope : Raw → Bool
  | .pyDict pairs =>
    (match dict_get pairs "ok" with
     | some (.pyBool b) =>
        if b then true
        else
          match dict_get pairs "error" with
          | some (.pyStr s) => !(s == "")
          | _ => false
     | _ => false)
  | _ => false

/-- The invocation emitted exactly one document and it is a
well-formed envelope. -/
def envelope_ok : MainResult → Bool
  | .doc d => good_envelope d
  | .crash _ => false

/-- Inputs for which _read_payload hands main a dict: blank stdin or
a JSON text parsing to an object. -/
def stdin_ok : Stdin → Bool
  | .blank => true
  | .invalidJson => false
  | .jsonVal (.pyDict _) => true
  | .jsonVal _ => false

/-- The dispatch outcome carries a non-empty message when it raises
(str of the exception is non-empty). -/
def outcome_msg_ok : Outcome → Bool
  | .ret _ => true
  | .raised msg _ => !(msg == "")

/-- Serializing the cells of a row keeps its length. -/
theorem serialize_cells_length (l : List Raw) :
    (serialize_cells l).length = l.length := by
  induction l with
  | nil => simp [serialize_cells]
  | cons x xs ih => simp [serialize_cells, ih]

/-- Serializing the rows of a dataframe keeps their number. -/
theorem serialize_rows_length (rs : List (List Raw)) :
    (serialize_rows rs).length = rs.length := by
  induction rs with
  | nil => simp [serialize_rows]
  | cons r rs ih => simp [serialize_rows, ih]

/-- Every member of a serialized row list is the serialization of one
of the original rows. -/
theorem serialize_rows_mem (rs : List (List Raw)) (x : Raw)
    (hx : x ∈ serialize_rows rs) :
    ∃ r, r ∈ rs ∧ x = .pyList (serialize_cells r) := by
  induction rs with
  | nil => simp [serialize_rows] at hx
  | cons r rs ih =>
    simp only [serialize_rows, List.mem_cons] at hx
    rcases hx with h | h
    · exact ⟨r, by simp, h⟩
    · rcases ih h with ⟨r2, hr2, he⟩
      exact ⟨r2, by simp [hr2], he⟩

/-- The comprehension at line 48 builds exactly the pairs
(str(k), serialize(v)) in order. -/
theorem serialize_pairs_eq_map (ps : List (Raw × Raw)) :
    serialize_pairs ps =
      ps.map (fun p => (Raw.pyStr (py_str p.1), serialize_value p.2)) := by
  induction ps with
  | nil => simp [serialize_pairs]
  | cons p ps ih =>
    cases p
    simp [serialize_pairs, ih]

/-- A failure payload contains only booleans and strings, hence no
non-finite number. -/
theorem has_nonfinite_err (m : String) (d : Option String) :
    has_nonfinite (err_payload m d) = false := by
  cases d with
  | none => simp [err_payload, has_nonfinite, has_nonfinite_pairs]
  | some s =>
    by_cases hs : s = "" <;>
      simp [err_payload, has_nonfinite, has_nonfinite_pairs, hs]

/-- A success payload contains a non-finite number exactly when the
wrapped result does. -/
theorem has_nonfinite_ok_payload (s : Raw) :
    has_nonfinite (ok_payload s) = has_nonfinite s := by
  simp [ok_payload, has_nonfinite, has_nonfinite_pairs]

/-- A failure payload is a well-formed envelope exactly when its
message is non-empty. -/
theorem good_envelope_err (m : String) (d : Option String) :
    good_envelope (err_payload m d) = !(m == "") := by
  cases d with
  | none => simp [err_payload, good_envelope, dict_get]
  | some s =>
    by_cases hs : s = "" <;>
      simp [err_payload, good_envelope, dict_get, hs]

/-- A success payload is always a well-formed envelope. -/
theorem good_envelope_ok_payload (s : Raw) :
    good_envelope (ok_payload s) = true := by
  simp [ok_payload, good_envelope, dict_get]

/-- The message of a json.dumps failure is never empty. -/
theorem dumps_error_message_ne (v : Raw) :
    (dumps_error_message v == "") = false := by
  rw [dumps_error_message]
  split <;> rfl

/-- C1: for every raw scalar that is a floating-point NaN, whether a
plain float (line 64) or a numpy boxed scalar unwrapping to a NaN
float (lines 51-55), normalization returns None (JSON null), not a
number and not the string "NaN". -/
theorem claim_C1 :
    serialize_value (.pyFloat .nan) = .pyNone ∧
    serialize_value (.npGeneric (.sFloat .nan)) = .pyNone := by
  constructor <;> simp [serialize_value, pyfloat_isnan]

/-- C2 counterexample: a raw positive infinity is NOT normalized to
None; line 64 only tests math.isnan, so the infinite float passes
through unchanged and a Number of the canonical tree holds it. -/
theorem claim_C2_counterexample :
    serialize_value (.pyFloat (.inf false)) ≠ .pyNone ∧
    serialize_value (.pyFloat (.inf false)) = .pyFloat (.inf false) := by
  constructor <;> simp [serialize_value, pyfloat_isnan]

/-- C2 amended: a raw NaN float is normalized to None, but a raw
positive or negative infinity passes through normalization unchanged,
so the normalized tree can hold an infinite Number (it is only
rejected later, at the success-serialization boundary). -/
theorem claim_C2_amended :
    serialize_value (.pyFloat .nan) = .pyNone ∧
    (∀ b : Bool, serialize_value (.pyFloat (.inf b)) = .pyFloat (.inf b)) ∧
    (∀ q : ℚ, serialize_value (.pyFloat (.finite q)) = .pyFloat (.finite q)) := by
  refine ⟨by simp [serialize_value, pyfloat_isnan], ?_, ?_⟩ <;>
    intro x <;> simp [serialize_value, pyfloat_isnan]

/-- C5 counterexample: the emitted tagged records carry no field named
kind and no field named rows; the discriminator field is named
__type__ (with value "dataframe" for a table) and the row data sits
under the field data. -/
theorem claim_C5_counterexample :
    doc_get (serialize_value (.dataframe [] [] [])) "kind" = none ∧
    doc_get (serialize_value (.dataframe [] [] [])) "rows" = none ∧
    doc_get (serialize_value (.dataframe [] [] [])) "__type__" =
      some (.pyStr "dataframe") ∧
    doc_get (serialize_value (.series none [] [])) "kind" = none := by
  refine ⟨?_, ?_, ?_, ?_⟩ <;> simp [serialize_value, doc_get, dict_get]

/-- C5 amended: every normalized two-dimensional labeled dataset is
emitted as a tagged record whose discriminator field is named
__type__ with value "dataframe", alongside fields columns, index and
data (the rows); every one-dimensional labeled dataset is emitted as
a tagged record with __type__ "series"; both are distinguished from a
generic mapping on the wire by this explicit discriminator field,
never by structural inference. -/
theorem claim_C5_amended :
    ∀ (cols idx : List Raw) (rows : List (List Raw)) (name : Option Raw)
      (sidx sdata : List Raw),
      doc_get (serialize_value (.dataframe cols idx rows)) "__type__" =
        some (.pyStr "dataframe") ∧
      doc_get (serialize_value (.dataframe cols idx rows)) "columns" =
        some (.pyList (cols.map (fun c => Raw.pyStr (py_str c)))) ∧
      doc_get (serialize_value (.dataframe cols idx rows)) "index" =
        some (.pyList (idx.map to_iso)) ∧
      doc_get (serialize_value (.dataframe cols idx rows)) "data" =
        some (.pyList (serialize_rows rows)) ∧
      doc_get (serialize_value (.series name sidx sdata)) "__type__" =
        some (.pyStr "series") := by
  intro cols idx rows name sidx sdata
  refine ⟨?_, ?_, ?_, ?_, ?_⟩ <;> cases name <;>
    simp [serialize_value, doc_get, dict_get]

/-- C6 counterexample: a datetime-valued column label does not become
its ISO-8601 representation; line 34 coerces column labels with str(),
which for a timezone-aware pandas Timestamp is the space-separated
form, not the T-separated isoformat the claim requires. -/
theorem claim_C6_counterexample :
    doc_get (serialize_value (.dataframe
        [.timestamp "2024-01-01T00:00:00+00:00" "2024-01-01 00:00:00+00:00"]
        [] [])) "columns" =
      some (.pyList [.pyStr "2024-01-01 00:00:00+00:00"]) ∧
    "2024-01-01 00:00:00+00:00" ≠ "2024-01-01T00:00:00+00:00" := by
  constructor
  · simp [serialize_value, doc_get, dict_get, py_str]
  · decide

/-- C6 amended: row labels (the index) of a dataframe are normalized
through _to_iso, so a datetime-valued index element becomes its full
ISO-8601 string including any timezone offset and a period-valued one
becomes its canonical textual label, two formats that are never
conflated; column labels, however, are coerced with str(), so a
datetime-valued column label becomes its default space-separated
string form, not its isoformat (the two coincide for periods, whose
str() is their label). -/
theorem claim_C6_amended :
    ∀ (cols idx : List Raw) (rows : List (List Raw)) (iso strForm lbl : String),
      doc_get (serialize_value (.dataframe cols idx rows)) "index" =
        some (.pyList (idx.map to_iso)) ∧
      to_iso (.timestamp iso strForm) = .pyStr iso ∧
      to_iso (.period lbl) = .pyStr lbl ∧
      doc_get (serialize_value (.dataframe cols idx rows)) "columns" =
        some (.pyList (cols.map (fun c => Raw.pyStr (py_str c)))) ∧
      py_str (.timestamp iso strForm) = strForm ∧
      py_str (.period lbl) = lbl := by
  intro cols idx rows iso strForm lbl
  refine ⟨?_, ?_, ?_, ?_, ?_, ?_⟩ <;>
    simp [serialize_value, doc_get, dict_get, to_iso, py_str]

/-- C8: for a duck-typed value with keys and item access that is not a
dataframe or series, normalization builds the mapping with keys
coerced by str() and values normalized recursively when lookup
succeeds; when key enumeration or lookup raises, no exception escapes
(serialize_value is total), no partially built mapping is emitted, and
the value falls through the remaining dispatch rules to the final
literal-value rule, which returns it unchanged. -/
theorem claim_C8 :
    ∀ (pairs : List (Raw × Raw)),
      serialize_value (.dictLike pairs true) = .dictLike pairs true ∧
      (∀ qs, serialize_value (.dictLike pairs true) ≠ .pyDict qs) ∧
      serialize_value (.dictLike pairs false) =
        .pyDict (pairs.map (fun p => (Raw.pyStr (py_str p.1), serialize_value p.2))) := by
  intro pairs
  refine ⟨by simp [serialize_value], ?_, ?_⟩
  · intro qs
    simp [serialize_value]
  · simp [serialize_value, serialize_pairs_eq_map]

/-- C9: for every input document lacking the action field, the output
is exactly the failure envelope with ok false and error "Missing
action in payload" and no other field, produced before any dispatch:
the result is the same for every dispatch outcome. -/
theorem claim_C9 :
    ∀ (pairs : List (Raw × Raw)) (o : Outcome),
      dict_get pairs "action" = none →
      run_main none (.jsonVal (.pyDict pairs)) o =
        .doc (.pyDict [(.pyStr "ok", .pyBool false),
                       (.pyStr "error", .pyStr "Missing action in payload")]) := by
  intro pairs o hget
  simp [run_main, read_payload, hget, err_payload]

/-- C9 witness: the empty input document produces exactly the missing
action failure envelope. -/
theorem claim_C9_witness :
    dict_get ([] : List (Raw × Raw)) "action" = none ∧
    run_main none (.jsonVal (.pyDict [])) (.ret .pyNone) =
      .doc (.pyDict [(.pyStr "ok", .pyBool false),
                     (.pyStr "error", .pyStr "Missing action in payload")]) :=
  ⟨rfl, claim_C9 [] (.ret .pyNone) rfl⟩

/-- C10: empty or whitespace-only standard input is not parsed as
JSON: _read_payload returns the empty dict, and main then emits the
missing action failure envelope, whatever the dispatch outcome would
have been. -/
theorem claim_C10 :
    read_payload .blank = Except.ok (.pyDict []) ∧
    ∀ (o : Outcome),
      run_main none .blank o =
        .doc (.pyDict [(.pyStr "ok", .pyBool false),
                       (.pyStr "error", .pyStr "Missing action in payload")]) := by
  refine ⟨rfl, ?_⟩
  intro o
  simp [run_main, read_payload, dict_get, err_payload]

/-- C7: every produced table satisfies len(index) = len(rows) with
every row of len(columns) elements, and every produced series
satisfies len(index) = len(data), whenever the raw dataset has the
rectangular shape pandas guarantees (as many rows as index entries,
each row as long as the column list). -/
theorem claim_C7 :
    ∀ (cols idx : List Raw) (rows : List (List Raw)) (name : Option Raw)
      (sidx sdata : List Raw),
      rows.length = idx.length →
      (∀ r ∈ rows, r.length = cols.length) →
      sdata.length = sidx.length →
      (∃ tidx trows tcols,
        doc_get (serialize_value (.dataframe cols idx rows)) "index" =
          some (.pyList tidx) ∧
        doc_get (serialize_value (.dataframe cols idx rows)) "data" =
          some (.pyList trows) ∧
        doc_get (serialize_value (.dataframe cols idx rows)) "columns" =
          some (.pyList tcols) ∧
        trows.length = tidx.length ∧
        ∀ x ∈ trows, ∃ cells, x = Raw.pyList cells ∧ cells.length = tcols.length) ∧
      (∃ gidx gdata,
        doc_get (serialize_value (.series name sidx sdata)) "index" =
          some (.pyList gidx) ∧
        doc_get (serialize_value (.series name sidx sdata)) "data" =
          some (.pyList gdata) ∧
        gdata.length = gidx.length) := by
  intro cols idx rows name sidx sdata h1 h2 h3
  constructor
  · refine ⟨idx.map to_iso, serialize_rows rows,
      cols.map (fun c => Raw.pyStr (py_str c)), ?_, ?_, ?_, ?_, ?_⟩
    · simp [serialize_value, doc_get, dict_get]
    · simp [serialize_value, doc_get, dict_get]
    · simp [serialize_value, doc_get, dict_get]
    · simp [serialize_rows_length, h1]
    · intro x hx
      rcases serialize_rows_mem rows x hx with ⟨r, hr, rfl⟩
      exact ⟨serialize_cells r, rfl, by simp [serialize_cells_length, h2 r hr]⟩
  · refine ⟨sidx.map to_iso, serialize_cells sdata, ?_, ?_, ?_⟩
    · cases name <;> simp [serialize_value, doc_get, dict_get]
    · cases name <;> simp [serialize_value, doc_get, dict_get]
    · simp [serialize_cells_length, h3]

/-- C7 witness: the shape invariant holds on a concrete one-cell
dataframe and an empty named series. -/
theorem claim_C7_witness :
    ([[Raw.pyNone]] : List (List Raw)).length = [Raw.pyInt 0].length ∧
    ((∃ tidx trows tcols,
        doc_get (serialize_value (.dataframe [.pyStr "a"] [.pyInt 0] [[.pyNone]]))
          "index" = some (.pyList tidx) ∧
        doc_get (serialize_value (.dataframe [.pyStr "a"] [.pyInt 0] [[.pyNone]]))
          "data" = some (.pyList trows) ∧
        doc_get (serialize_value (.dataframe [.pyStr "a"] [.pyInt 0] [[.pyNone]]))
          "columns" = some (.pyList tcols) ∧
        trows.length = tidx.length ∧
        ∀ x ∈ trows, ∃ cells, x = Raw.pyList cells ∧ cells.length = tcols.length) ∧
      (∃ gidx gdata,
        doc_get (serialize_value (.series none [] [])) "index" =
          some (.pyList gidx) ∧
        doc_get (serialize_value (.series none [] [])) "data" =
          some (.pyList gdata) ∧
        gdata.length = gidx.length)) :=
  ⟨rfl, claim_C7 [.pyStr "a"] [.pyInt 0] [[.pyNone]] none [] [] rfl
    (by intro r hr; simp at hr; simp [hr]) rfl⟩

/-- C3: if the normalized result still contains a non-finite number
when the success envelope is serialized, json.dumps(allow_nan=False)
rejects it: no success document is emitted, the request is reported
with a single structured failure document (the ValueError caught at
the request boundary), the process does not crash; and consequently
no document that main ever emits contains a non-finite number. -/
theorem claim_C3 :
    (∀ (pairs : List (Raw × Raw)) (a v : Raw),
      dict_get pairs "action" = some a → truthy a = true →
      has_nonfinite (serialize_value v) = true →
      run_main none (.jsonVal (.pyDict pairs)) (.ret v) =
        .doc (err_payload (dumps_error_message (ok_payload (serialize_value v)))
          (some dumps_traceback))) ∧
    (∀ (imp : Option String) (s : Stdin) (o : Outcome) (d : Raw),
      run_main imp s o = .doc d → has_nonfinite d = false) := by
  constructor
  · intro pairs a v hget htr hnf
    simp [run_main, read_payload, hget, htr, json_dumpable,
      has_nonfinite_ok_payload, hnf]
  · intro imp s o d h
    cases imp with
    | some e =>
      simp only [run_main] at h
      cases h
      exact has_nonfinite_err _ _
    | none =>
      cases s with
      | blank =>
        simp only [run_main, read_payload, dict_get] at h
        cases h
        exact has_nonfinite_err _ _
      | invalidJson =>
        simp only [run_main, read_payload] at h
        exact absurd h (by simp)
      | jsonVal v =>
        cases v with
        | pyDict pairs =>
          simp only [run_main, read_payload] at h
          split at h
          · cases h
            exact has_nonfinite_err _ _
          · split at h
            · split at h
              · split at h
                · cases h
                  rename_i hdump
                  simp only [json_dumpable, Bool.and_eq_true,
                    Bool.not_eq_true'] at hdump
                  exact hdump.1
                · cases h
                  exact has_nonfinite_err _ _
              · cases h
                exact has_nonfinite_err _ _
            · cases h
              exact has_nonfinite_err _ _
        | pyNone => simp only [run_main, read_payload] at h; exact absurd h (by simp)
        | pyBool b => simp only [run_main, read_payload] at h; exact absurd h (by simp)
        | pyInt n => simp only [run_main, read_payload] at h; exact absurd h (by simp)
        | pyFloat f => simp only [run_main, read_payload] at h; exact absurd h (by simp)
        | pyStr sv => simp only [run_main, read_payload] at h; exact absurd h (by simp)
        | pyList es => simp only [run_main, read_payload] at h; exact absurd h (by simp)
        | pyTuple es => simp only [run_main, read_payload] at h; exact absurd h (by simp)
        | npGeneric sc => simp only [run_main, read_payload] at h; exact absurd h (by simp)
        | ndarray es => simp only [run_main, read_payload] at h; exact absurd h (by simp)
        | dataframe c i r => simp only [run_main, read_payload] at h; exact absurd h (by simp)
        | series n i dd => simp only [run_main, read_payload] at h; exact absurd h (by simp)
        | dictLike ps r => simp only [run_main, read_payload] at h; exact absurd h (by simp)
        | timestamp i sf => simp only [run_main, read_payload] at h; exact absurd h (by simp)
        | period l => simp only [run_main, read_payload] at h; exact absurd h (by simp)

/-- C3 witness: with a valid action and a dispatch result holding a
positive infinity, the serialized tree is non-finite and the request
ends in the structured failure document. -/
theorem claim_C3_witness :
    has_nonfinite (serialize_value (.pyFloat (.inf false))) = true ∧
    run_main none (.jsonVal (.pyDict [(.pyStr "action", .pyStr "x")]))
        (.ret (.pyFloat (.inf false))) =
      .doc (err_payload
        (dumps_error_message (ok_payload (serialize_value (.pyFloat (.inf false)))))
        (some dumps_traceback)) :=
  ⟨by simp [serialize_value, pyfloat_isnan, has_nonfinite, pyfloat_finite],
   claim_C3.1 [(.pyStr "action", .pyStr "x")] (.pyStr "x") (.pyFloat (.inf false))
     (by simp [dict_get]) (by simp [truthy])
     (by simp [serialize_value, pyfloat_isnan, has_nonfinite, pyfloat_finite])⟩

/-- C4 counterexample: a syntactically malformed JSON input does not
produce an envelope at all; json.loads is called by _read_payload at
line 457, OUTSIDE the try block of lines 465-470, so the parse error
propagates as an uncaught exception and the process crashes with
nothing written. -/
theorem claim_C4_counterexample :
    run_main none .invalidJson (.ret .pyNone) =
      .crash "json.decoder.JSONDecodeError" ∧
    envelope_ok (run_main none .invalidJson (.ret .pyNone)) = false := by
  constructor <;> simp [run_main, read_payload, envelope_ok]

/-- C4 amended: for every input that is blank or parses to a JSON
object (and whenever the import guard is tripped, for any input at
all), exactly one envelope document is produced, with a boolean ok
field and, when ok is false, a non-empty error string provided the
raised exception itself carries a non-empty message; a malformed JSON
input, or one parsing to a non-object, instead escapes the request
boundary as an uncaught exception. -/
theorem claim_C4_amended :
    ∀ (imp : Option String) (s : Stdin) (o : Outcome),
      (imp.isSome || stdin_ok s) = true → outcome_msg_ok o = true →
      envelope_ok (run_main imp s o) = true := by
  intro imp s o h1 h2
  cases imp with
  | some e => simp [run_main, envelope_ok, good_envelope_err]
  | none =>
    simp only [Option.isSome_none, Bool.false_or] at h1
    cases s with
    | blank =>
      simp [run_main, read_payload, dict_get, envelope_ok, good_envelope_err]
    | invalidJson => simp [stdin_ok] at h1
    | jsonVal v =>
      cases v with
      | pyDict pairs =>
        rcases hget : dict_get pairs "action" with _ | a
        · simp [run_main, read_payload, hget, envelope_ok, good_envelope_err]
        · cases htr : truthy a with
          | false =>
            simp [run_main, read_payload, hget, htr, envelope_ok,
              good_envelope_err]
          | true =>
            cases o with
            | ret w =>
              cases hdump : json_dumpable (ok_payload (serialize_value w)) with
              | true =>
                simp [run_main, read_payload, hget, htr, hdump, envelope_ok,
                  good_envelope_ok_payload]
              | false =>
                simp [run_main, read_payload, hget, htr, hdump, envelope_ok,
                  good_envelope_err, dumps_error_message_ne]
            | raised msg tr =>
              simp only [outcome_msg_ok] at h2
              simp [run_main, read_payload, hget, htr, envelope_ok,
                good_envelope_err, h2]
      | pyNone => simp [stdin_ok] at h1
      | pyBool b => simp [stdin_ok] at h1
      | pyInt n => simp [stdin_ok] at h1
      | pyFloat f => simp [stdin_ok] at h1
      | pyStr sv => simp [stdin_ok] at h1
      | pyList es => simp [stdin_ok] at h1
      | pyTuple es => simp [stdin_ok] at h1
      | npGeneric sc => simp [stdin_ok] at h1
      | ndarray es => simp [stdin_ok] at h1
      | dataframe c i r => simp [stdin_ok] at h1
      | series n i dd => simp [stdin_ok] at h1
      | dictLike ps r => simp [stdin_ok] at h1
      | timestamp i sf => simp [stdin_ok] at h1
      | period l => simp [stdin_ok] at h1

/-- C4 witness: the blank input with a clean import and a returning
dispatch produces one well-formed envelope. -/
theorem claim_C4_amended_witness :
    envelope_ok (run_main none .blank (.ret .pyNone)) = true :=
  claim_C4_amended none .blank (.ret .pyNone) (by rfl) (by rfl)
